import Mathlib

/-!
Verification of the family-recipes utility scripts:
`scripts/progress.py` (deliverable tracker) and
`scripts/grafana/grafana_api.py` (HTTP API helper).

The tracker's filesystem access is modelled by an abstract `FS` record:
`isFile` answers `Path.is_file()` and `dirEntries` returns the entry
names of a directory (`none` when `Path.is_dir()` is false).
-/

namespace Progress

/-- Abstract filesystem state seen by the tracker. -/
structure FS where
  isFile : String → Bool
  dirEntries : String → Option (List String)

/-- A single deliverable check: `(check_type, path)` tuple from `DELIVERABLES`. -/
structure Check where
  kind : String
  path : String
  deriving DecidableEq

/-- One milestone entry of `DELIVERABLES`: display name and ordered check list. -/
structure Milestone where
  name : String
  checks : List Check
  deriving DecidableEq

/-- `check_file`: `(PROJECT_ROOT / path).is_file()`. -/
def check_file (fs : FS) (path : String) : Bool :=
  fs.isFile path

/-- `f.name.startswith(".")` on a directory entry name. -/
def startsWithDot (s : String) : Bool :=
  match s.data with
  | [] => false
  | c :: _ => c == '.'

/-- `check_dir`: directory exists and has at least one entry whose name does
not start with a dot. -/
def check_dir (fs : FS) (path : String) : Bool :=
  match fs.dirEntries path with
  | none => false
  | some entries => entries.any (fun f => !(startsWithDot f))

/-- The per-check dispatch inside `check_pr_status`: `file` and `dir` kinds are
evaluated, any other kind yields `exists = False`. -/
def evalCheck (fs : FS) (c : Check) : Bool :=
  if c.kind = "file" then check_file fs c.path
  else if c.kind = "dir" then check_dir fs c.path
  else false

/-- The `passed` counter of `check_pr_status`: number of checks that evaluate
to true. -/
def passedCount (fs : FS) (checks : List Check) : Nat :=
  (checks.filter (fun c => evalCheck fs c)).length

/-- One element of the `details` list: `{"type": ..., "path": ..., "exists": ...}`
(`exists` is a Lean keyword, so the field is named `found`). -/
structure CheckDetail where
  type : String
  path : String
  found : Bool
  deriving DecidableEq

/-- Python's builtin `round` applied to the exact non-negative rational
`num / den` (`den > 0`): round half to even. A binary64 float is an exact
rational of this form, so this is also the final step of `round` on a
float. -/
def pyRound (num den : Nat) : Nat :=
  let q := num / den
  let r := num % den
  if 2 * r < den then q
  else if den < 2 * r then q + 1
  else if q % 2 = 0 then q else q + 1

/-- A non-negative IEEE-754 binary64 value, as an exact `mant * 2 ^ exp`.
The program's percentages divide one check count by another and multiply by
100, which stays far inside the normal range for any Python list length, so
subnormal and overflow handling is not needed. -/
structure F64 where
  mant : Nat
  exp : Int
  deriving DecidableEq

/-- Number of binary digits of `n` (0 for `n = 0`), with a structural fuel
argument so that the kernel can evaluate it. -/
def bitsAux : Nat → Nat → Nat
  | 0, _ => 0
  | fuel + 1, n => if n = 0 then 0 else bitsAux fuel (n / 2) + 1

/-- Number of binary digits of `n`. -/
def bits (n : Nat) : Nat := bitsAux n n

/-- Quotient, remainder and denominator of `(a * 2 ^ s) / b` as an exact
fraction, for either sign of the scaling exponent `s`. -/
def divScaled (a b : Nat) (s : Int) : Nat × Nat × Nat :=
  if 0 ≤ s then
    let n := a * 2 ^ s.toNat
    (n / b, n % b, b)
  else
    let d := b * 2 ^ (-s).toNat
    (a / d, a % d, d)

/-- Round the exact value `(q + r / d) * 2 ^ e`, with `2 ^ 52 ≤ q < 2 ^ 53`,
to the nearest 53-bit mantissa (ties to even), renormalizing on carry. -/
def fnormRound (q r d : Nat) (e : Int) : F64 :=
  let m :=
    if 2 * r < d then q
    else if d < 2 * r then q + 1
    else if q % 2 = 0 then q else q + 1
  if m = 2 ^ 53 then ⟨2 ^ 52, e + 1⟩ else ⟨m, e⟩

/-- Correctly rounded binary64 division `a / b` of two naturals: scale the
numerator so the integer quotient has 53 bits, then round to nearest, ties
to even. This is the CPython `passed / total` step. -/
def fdiv (a b : Nat) : F64 :=
  if a = 0 ∨ b = 0 then ⟨0, 0⟩
  else
    let s1 : Int := 52 - ((bits a : Int) - (bits b : Int))
    let p1 := divScaled a b s1
    let sp := if p1.1 < 2 ^ 52 then (s1 + 1, divScaled a b (s1 + 1)) else (s1, p1)
    fnormRound sp.2.1 sp.2.2.1 sp.2.2.2 (-sp.1)

/-- Correctly rounded binary64 multiplication by 100: the exact product
`mant * 100` rounded back to a 53-bit mantissa. This is the `* 100` step. -/
def fmul100 (x : F64) : F64 :=
  if x.mant = 0 then ⟨0, 0⟩
  else
    let p := x.mant * 100
    let w := bits p
    if w ≤ 53 then ⟨p, x.exp⟩
    else
      let k := w - 53
      fnormRound (p / 2 ^ k) (p % 2 ^ k) (2 ^ k) (x.exp + k)

/-- Python `round` on a non-negative binary64 value: the float is the exact
rational `mant / 2 ^ (-exp)`, rounded half to even. -/
def pyRoundF (x : F64) : Nat :=
  if 0 ≤ x.exp then x.mant * 2 ^ x.exp.toNat
  else pyRound x.mant (2 ^ (-x.exp).toNat)

/-- `round(passed / total * 100)` exactly as CPython evaluates it: binary64
division, binary64 multiplication by 100, then `round` on the result. -/
def pyPercent (passed total : Nat) : Nat :=
  pyRoundF (fmul100 (fdiv passed total))

/-- The per-milestone result record built by `check_pr_status`. -/
structure PRResult where
  name : String
  status : String
  progress : String
  percent : Nat
  details : List CheckDetail
  deriving DecidableEq

/-- The body of the `check_pr_status` loop for one milestone. -/
def prResult (fs : FS) (m : Milestone) : PRResult :=
  let total := m.checks.length
  let passed := passedCount fs m.checks
  { name := m.name
    status :=
      if passed = total then "complete"
      else if 0 < passed then "in_progress"
      else "not_started"
    progress := toString passed ++ "/" ++ toString total
    percent := if 0 < total then pyPercent passed total else 0
    details := m.checks.map (fun c => ⟨c.kind, c.path, evalCheck fs c⟩) }

/-- `check_pr_status`: evaluates every milestone of the deliverables mapping in
order. -/
def check_pr_status (fs : FS) (delivs : List (String × Milestone)) :
    List (String × PRResult) :=
  delivs.map (fun d => (d.1, prResult fs d.2))

/-- The `summary` object assembled in `main`: group counts follow the
`if/elif/else` grouping on the status string, the overall counters sum over
every milestone's `details`, and the overall percent guards against an empty
total (`if total_checks` truthiness). -/
structure Summary where
  complete : Nat
  in_progress : Nat
  not_started : Nat
  total : Nat
  overall_checks_passed : Nat
  overall_checks_total : Nat
  overall_percent : Nat
  deriving DecidableEq

/-- The summary computation of `main` over the `check_pr_status` results. -/
def summaryOf (results : List (String × PRResult)) : Summary :=
  let completeN := (results.filter (fun r => r.2.status == "complete")).length
  let inProgressN := (results.filter
    (fun r => !(r.2.status == "complete") && r.2.status == "in_progress")).length
  let notStartedN := (results.filter
    (fun r => !(r.2.status == "complete") && !(r.2.status == "in_progress"))).length
  let totalChecks := (results.map (fun r => r.2.details.length)).sum
  let passedChecks :=
    (results.map (fun r => (r.2.details.filter (fun det => det.found)).length)).sum
  { complete := completeN
    in_progress := inProgressN
    not_started := notStartedN
    total := results.length
    overall_checks_passed := passedChecks
    overall_checks_total := totalChecks
    overall_percent :=
      if 0 < totalChecks then pyPercent passedChecks totalChecks else 0 }

/-- A filesystem with no files and no directories. -/
def emptyFS : FS :=
  { isFile := fun _ => false, dirEntries := fun _ => none }

/-- A filesystem whose only directory `d` contains just the file `.gitkeep`. -/
def gitkeepFS : FS :=
  { isFile := fun _ => false
    dirEntries := fun p => if p == "d" then some [".gitkeep"] else none }

/-- A filesystem whose only directory `d` is empty. -/
def emptyDirFS : FS :=
  { isFile := fun _ => false
    dirEntries := fun p => if p == "d" then some [] else none }

/-- Fixture filesystem: files `a1`, `a2`, `b1` exist, nothing else. -/
def fixtureFS : FS :=
  { isFile := fun p => p == "a1" || p == "a2" || p == "b1"
    dirEntries := fun _ => none }

/-- Fixture deliverables: milestones with 2/2, 1/3 and 0/0 passing checks
under `fixtureFS`. -/
def fixtureDelivs : List (String × Milestone) :=
  [("PR-A", { name := "A", checks := [⟨"file", "a1"⟩, ⟨"file", "a2"⟩] }),
   ("PR-B", { name := "B",
              checks := [⟨"file", "b1"⟩, ⟨"file", "b2"⟩, ⟨"file", "b3"⟩] }),
   ("PR-C", { name := "C", checks := [] })]

/-- JSON values, as produced by `json.dump` of the output dictionary. -/
inductive Json where
  | str : String → Json
  | nat : Nat → Json
  | bool : Bool → Json
  | arr : List Json → Json
  | obj : List (String × Json) → Json

/-- JSON form of one `details` entry. -/
def encodeDetail (d : CheckDetail) : Json :=
  .obj [("type", .str d.type), ("path", .str d.path), ("exists", .bool d.found)]

/-- JSON form of one per-milestone result. -/
def encodePR (r : PRResult) : Json :=
  .obj [("name", .str r.name), ("status", .str r.status),
        ("progress", .str r.progress), ("percent", .nat r.percent),
        ("details", .arr (r.details.map encodeDetail))]

/-- JSON form of the `summary` dictionary. -/
def encodeSummary (s : Summary) : Json :=
  .obj [("complete", .nat s.complete), ("in_progress", .nat s.in_progress),
        ("not_started", .nat s.not_started), ("total", .nat s.total),
        ("overall_checks_passed", .nat s.overall_checks_passed),
        ("overall_checks_total", .nat s.overall_checks_total),
        ("overall_percent", .nat s.overall_percent)]

/-- The `output` dictionary built in `main` and passed to `json.dump`. -/
def buildOutput (now : String) (results : List (String × PRResult)) : Json :=
  .obj [("timestamp", .str now),
        ("prs", .obj (results.map (fun r => (r.1, encodePR r.2)))),
        ("summary", encodeSummary (summaryOf results))]

/-- Top-level keys of a JSON object. -/
def topKeys : Json → List String
  | .obj kvs => kvs.map Prod.fst
  | _ => []

/-- The fixed snapshot path `PROJECT_ROOT / ".progress.json"` opened in `main`
(relative to the project root). -/
def output_path : String := ".progress.json"

/-- Effect of `open(output_path, "w")` followed by `json.dump` on a store
mapping paths to file contents: the snapshot path now holds the new report,
whatever it held before. -/
def writeSnapshot (store : String → Option Json) (j : Json) :
    String → Option Json :=
  fun q => if q = output_path then some j else store q

/-- A filesystem with the single file `y`. -/
def yFS : FS :=
  { isFile := fun p => p == "y", dirEntries := fun _ => none }

/-- A milestone with 40 checks of which exactly 23 pass under `yFS`. -/
def m2340 : Milestone :=
  { name := "M"
    checks := List.replicate 23 ⟨"file", "y"⟩ ++ List.replicate 17 ⟨"file", "n"⟩ }

/-- A variant of `fixtureFS` with one extra file `zzz` that no check
mentions. -/
def fixtureFSplus : FS :=
  { isFile := fun p => p == "a1" || p == "a2" || p == "b1" || p == "zzz"
    dirEntries := fun _ => none }

end Progress

namespace Grafana

/-- Python strings on the API-helper side are modelled as lists of
characters, so that splitting and concatenation are structural. -/
abbrev Str := List Char

/-- `item.split("=", 1)` guarded by `"=" in item`: `none` when the item has
no `=`, otherwise the part before the first `=` and everything after it. -/
def splitOnceEq : Str → Option (Str × Str)
  | [] => none
  | c :: rest =>
    if c = '=' then some ([], rest)
    else
      match splitOnceEq rest with
      | none => none
      | some kv => some (c :: kv.1, kv.2)

/-- `parsed.setdefault(key, []).append(value)` on an insertion-ordered
mapping, modelled as an association list. -/
def addParam (m : List (Str × List Str)) (k v : Str) :
    List (Str × List Str) :=
  match m with
  | [] => [(k, [v])]
  | kv :: rest =>
    if kv.1 = k then (kv.1, kv.2 ++ [v]) :: rest
    else kv :: addParam rest k v

/-- The loop of `parse_query`, carrying the mapping built so far. -/
def parseQueryAux (acc : List (Str × List Str)) :
    List Str → Except String (List (Str × List Str))
  | [] => .ok acc
  | item :: rest =>
    match splitOnceEq item with
    | none => .error "Invalid query item. Use key=value."
    | some kv => parseQueryAux (addParam acc kv.1 kv.2) rest

/-- `parse_query`: each item split on its first `=`, values accumulated per
key in order; an item without `=` raises `ValueError`. -/
def parse_query (items : List Str) :
    Except String (List (Str × List Str)) :=
  parseQueryAux [] items

/-- Values stored under a key of the parsed multi-value mapping. -/
def lookupVals (m : List (Str × List Str)) (k : Str) : List Str :=
  match m with
  | [] => []
  | kv :: rest => if kv.1 = k then kv.2 else lookupVals rest k

/-- The values an item list carries for a key, in item order: the expected
content of the multi-value mapping. -/
def itemVals (items : List Str) (k : Str) : List Str :=
  items.filterMap (fun item =>
    match splitOnceEq item with
    | some kv => if kv.1 = k then some kv.2 else none
    | none => none)

/-- `base.rstrip("/")`. -/
def rstripSlash (s : Str) : Str :=
  (s.reverse.dropWhile (fun c => c == '/')).reverse

/-- `path.startswith("/")`. -/
def hasLeadingSlash (p : Str) : Bool :=
  p.head? == some '/'

/-- `urllib.parse.urlencode(query, doseq=True)`: each value of each key
becomes a `key=value` pair, pairs joined by `&` (percent-quoting of reserved
characters is not modelled; no claim depends on it). -/
def urlencodePairs (q : List (Str × List Str)) : Str :=
  List.intercalate ['&']
    ((q.map (fun kv => kv.2.map (fun v => kv.1 ++ '=' :: v))).flatten)

/-- `build_url`: trailing slashes stripped from the base, a leading slash
ensured on the path, and a `?querystring` appended only when the mapping is
non-empty. -/
def build_url (base path : Str) (q : List (Str × List Str)) : Str :=
  let b := rstripSlash base
  let p := if hasLeadingSlash path then path else '/' :: path
  let url := b ++ p
  if q.isEmpty then url else url ++ '?' :: urlencodePairs q

/-- Python truthiness of an optional string: `None` and the empty string are
falsy. -/
def pyTruthy : Option Str → Bool
  | none => false
  | some s => !s.isEmpty

/-- The tail of `read_payload` once the `data_file` branch is not taken:
`data.encode("utf-8")` when `--data` was given (even empty), else `None`. -/
def inlineBody (data : Option Str) : Except String (Option Str) :=
  match data with
  | some d => .ok (some d)
  | none => .ok none

/-- `read_payload`: `--data` and `--data-file` both truthy is an error; a
truthy `--data-file` is read from the filesystem (`readFile` maps a path to
its contents); otherwise the inline string, or no body at all. -/
def read_payload (data dataFile : Option Str) (readFile : Str → Str) :
    Except String (Option Str) :=
  if pyTruthy data && pyTruthy dataFile then
    .error "Use only one of --data or --data-file."
  else
    match dataFile with
    | some f => if f.isEmpty then inlineBody data else .ok (some (readFile f))
    | none => inlineBody data

/-- The outbound HTTP request assembled by `make_request` before the network
call. -/
structure Request where
  method : Str
  url : Str
  headers : List (Str × Str)
  body : Option Str
  deriving DecidableEq

/-- `make_request` up to the network call: Authorization and Accept headers
always, Content-Type only when a payload is present. -/
def make_request (method url token : Str) (payload : Option Str)
    (contentType : Str) : Request :=
  { method := method
    url := url
    headers := [("Authorization".data, "Bearer ".data ++ token),
                ("Accept".data, "application/json".data)] ++
      (match payload with
       | some _ => [("Content-Type".data, contentType)]
       | none => [])
    body := payload }

/-- The `try` block of `main`: query parsing, URL building, body resolution
and request assembly in source order; the first `ValueError` aborts with no
request built. -/
def runPipeline (method path : Str) (queryItems : List Str)
    (data dataFile : Option Str) (contentType : Str)
    (baseUrl token : Str) (readFile : Str → Str) : Except String Request :=
  match parse_query queryItems with
  | .error e => .error e
  | .ok q =>
    let url := build_url baseUrl path q
    match read_payload data dataFile readFile with
    | .error e => .error e
    | .ok payload => .ok (make_request method url token payload contentType)

end Grafana

namespace Progress

theorem passedCount_le (fs : FS) (checks : List Check) :
    passedCount fs checks ≤ checks.length :=
  List.length_filter_le _ _

theorem evalCheck_congr (fs1 fs2 : FS) (c : Check)
    (hf : fs1.isFile c.path = fs2.isFile c.path)
    (hd : fs1.dirEntries c.path = fs2.dirEntries c.path) :
    evalCheck fs1 c = evalCheck fs2 c := by
  simp [evalCheck, check_file, check_dir, hf, hd]

theorem prResult_congr (fs1 fs2 : FS) (m : Milestone)
    (h : ∀ c ∈ m.checks, fs1.isFile c.path = fs2.isFile c.path ∧
      fs1.dirEntries c.path = fs2.dirEntries c.path) :
    prResult fs1 m = prResult fs2 m := by
  have he : ∀ c ∈ m.checks, evalCheck fs1 c = evalCheck fs2 c :=
    fun c hc => evalCheck_congr fs1 fs2 c (h c hc).1 (h c hc).2
  have hp : passedCount fs1 m.checks = passedCount fs2 m.checks := by
    unfold passedCount
    rw [List.filter_congr he]
  have hdet :
      m.checks.map (fun c => (⟨c.kind, c.path, evalCheck fs1 c⟩ : CheckDetail))
        = m.checks.map (fun c => ⟨c.kind, c.path, evalCheck fs2 c⟩) :=
    List.map_congr_left (fun c hc => by rw [he c hc])
  simp [prResult, hp, hdet]

theorem prResult_details_length (fs : FS) (m : Milestone) :
    (prResult fs m).details.length = m.checks.length := by
  simp [prResult]

theorem prResult_details_passed (fs : FS) (m : Milestone) :
    ((prResult fs m).details.filter (fun det => det.found)).length
      = passedCount fs m.checks := by
  simp only [prResult, passedCount, ← List.countP_eq_length_filter,
    List.countP_map]
  rfl

end Progress

namespace Grafana

theorem splitOnceEq_split (k v : Str) (hk : ¬ '=' ∈ k) :
    splitOnceEq (k ++ '=' :: v) = some (k, v) := by
  induction k with
  | nil => simp [splitOnceEq]
  | cons c rest ih =>
    have hc : ¬ c = '=' := fun h => hk (h ▸ List.mem_cons_self c rest)
    have hrest : ¬ '=' ∈ rest := fun h => hk (List.mem_cons_of_mem c h)
    simp only [List.cons_append, splitOnceEq, if_neg hc]
    simp only [List.append_eq, ih hrest]

theorem splitOnceEq_eq_none (i : Str) (hi : ¬ '=' ∈ i) :
    splitOnceEq i = none := by
  induction i with
  | nil => rfl
  | cons c rest ih =>
    have hc : ¬ c = '=' := fun h => hi (h ▸ List.mem_cons_self c rest)
    have hrest : ¬ '=' ∈ rest := fun h => hi (List.mem_cons_of_mem c h)
    simp only [splitOnceEq, if_neg hc, ih hrest]

theorem parseQueryAux_error (items : List Str) (i : Str) :
    ∀ acc, i ∈ items → splitOnceEq i = none →
      ∃ e, parseQueryAux acc items = .error e := by
  induction items with
  | nil => intro acc hmem _; cases hmem
  | cons item rest ih =>
    intro acc hmem hnone
    rcases List.mem_cons.mp hmem with heq | htail
    · subst heq
      exact ⟨"Invalid query item. Use key=value.", by
        simp only [parseQueryAux, hnone]⟩
    · cases hsplit : splitOnceEq item with
      | none =>
        exact ⟨"Invalid query item. Use key=value.", by
          simp only [parseQueryAux, hsplit]⟩
      | some kv =>
        obtain ⟨e, he⟩ := ih (addParam acc kv.1 kv.2) htail hnone
        exact ⟨e, by simp only [parseQueryAux, hsplit, he]⟩

theorem lookupVals_addParam (m : List (Str × List Str)) (k0 v k : Str) :
    lookupVals (addParam m k0 v) k =
      if k0 = k then lookupVals m k ++ [v] else lookupVals m k := by
  induction m with
  | nil =>
    by_cases h : k0 = k
    · simp [addParam, lookupVals, h]
    · simp [addParam, lookupVals, h]
  | cons kv rest ih =>
    by_cases hk0 : kv.1 = k0
    · by_cases hk : k0 = k
      · subst hk
        simp [addParam, lookupVals, hk0]
      · have hne : ¬ kv.1 = k := fun h => hk (hk0 ▸ h)
        simp [addParam, lookupVals, hk0, hne, hk]
    · by_cases hk : kv.1 = k
      · have hne : ¬ k0 = k := fun h => hk0 (hk.trans h.symm)
        have hne2 : ¬ k = k0 := fun h => hne h.symm
        simp [addParam, lookupVals, hk0, hk, hne, hne2]
      · simp [addParam, lookupVals, hk0, hk, ih]

theorem parseQueryAux_ok (items : List Str) :
    ∀ acc m, parseQueryAux acc items = .ok m →
      ∀ k, lookupVals m k = lookupVals acc k ++ itemVals items k := by
  induction items with
  | nil =>
    intro acc m h k
    cases h
    simp [itemVals]
  | cons item rest ih =>
    intro acc m h k
    cases hsplit : splitOnceEq item with
    | none => rw [parseQueryAux, hsplit] at h; cases h
    | some kv =>
      rw [parseQueryAux, hsplit] at h
      have := ih (addParam acc kv.1 kv.2) m h k
      rw [this, lookupVals_addParam]
      have hit : itemVals (item :: rest) k =
          if kv.1 = k then kv.2 :: itemVals rest k else itemVals rest k := by
        simp only [itemVals, List.filterMap_cons, hsplit]
        by_cases hk : kv.1 = k
        · rw [if_pos hk, if_pos hk]
        · rw [if_neg hk, if_neg hk]
      rw [hit]
      by_cases hk : kv.1 = k
      · rw [if_pos hk, if_pos hk, List.append_assoc]
        rfl
      · rw [if_neg hk, if_neg hk]

theorem mem_rstripSlash (c : Char) (s : Str) (h : c ∈ rstripSlash s) :
    c ∈ s := by
  unfold rstripSlash at h
  rw [List.mem_reverse] at h
  have := (List.dropWhile_sublist (l := s.reverse)
    (p := fun x => x == '/')).mem h
  rwa [List.mem_reverse] at this

end Grafana

open Progress

/-- C1: the classification computed by `check_pr_status` is one of the three
statuses `complete` (all checks pass, vacuously so for an empty check list),
`in_progress` (at least one but not all pass) and `not_started` (none of at
least one check pass); these are mutually exclusive, the status is never
`no_checks`, and a milestone with zero checks classifies as `complete`. -/
theorem milestone_status_partition (fs : FS) (m : Milestone) :
    ((prResult fs m).status = "complete" ↔
      passedCount fs m.checks = m.checks.length) ∧
    ((prResult fs m).status = "in_progress" ↔
      0 < passedCount fs m.checks ∧ passedCount fs m.checks < m.checks.length) ∧
    ((prResult fs m).status = "not_started" ↔
      passedCount fs m.checks = 0 ∧ 0 < m.checks.length) ∧
    (prResult fs m).status ≠ "no_checks" ∧
    (m.checks = [] → (prResult fs m).status = "complete") := by
  have hle := passedCount_le fs m.checks
  have hst : (prResult fs m).status =
      if passedCount fs m.checks = m.checks.length then "complete"
      else if 0 < passedCount fs m.checks then "in_progress"
      else "not_started" := rfl
  by_cases h1 : passedCount fs m.checks = m.checks.length
  · rw [hst, if_pos h1]
    exact ⟨⟨fun _ => h1, fun _ => rfl⟩,
      ⟨fun h => absurd h (by decide), fun hc => by omega⟩,
      ⟨fun h => absurd h (by decide), fun hc => by omega⟩,
      by decide, fun _ => rfl⟩
  · rw [hst, if_neg h1]
    by_cases h2 : 0 < passedCount fs m.checks
    · rw [if_pos h2]
      refine ⟨⟨fun h => absurd h (by decide), fun hc => absurd hc h1⟩,
        ⟨fun _ => ⟨h2, lt_of_le_of_ne hle h1⟩, fun _ => rfl⟩,
        ⟨fun h => absurd h (by decide), fun hc => by omega⟩, by decide, ?_⟩
      intro hnil
      exfalso
      rw [hnil] at h2
      simp [passedCount] at h2
    · rw [if_neg h2]
      refine ⟨⟨fun h => absurd h (by decide), fun hc => absurd hc h1⟩,
        ⟨fun h => absurd h (by decide), fun hc => absurd hc.1 h2⟩,
        ⟨fun _ => ⟨by omega, by omega⟩, fun _ => rfl⟩, by decide, ?_⟩
      intro hnil
      exfalso
      rw [hnil] at h1
      simp [passedCount] at h1

/-- Witness for C1: a milestone with an empty check list is classified
`complete` by the code. -/
theorem milestone_status_partition_witness :
    (prResult emptyFS { name := "M", checks := [] }).status = "complete" :=
  (milestone_status_partition emptyFS { name := "M", checks := [] }).2.2.2.2 rfl

/-- Counterexample to C1 as stated: the milestone with zero checks is
classified `complete`, not `no_checks` — the code has no `no_checks` status. -/
theorem milestone_no_checks_counterexample :
    (prResult emptyFS { name := "M", checks := [] }).status ≠ "no_checks" ∧
    (prResult emptyFS { name := "M", checks := [] }).status = "complete" := by
  constructor
  · decide
  · decide

/-- Counterexample to C2 as stated: with 23 of 40 checks passing, the
program's percent is 57 — the binary64 product `23 / 40 * 100` falls just
below 57.5 — while round of the exact ratio `100 * 23 / 40` is 58, so the
percent field does not equal round of the exact ratio. -/
theorem percent_float_counterexample :
    passedCount yFS m2340.checks = 23 ∧
    m2340.checks.length = 40 ∧
    (prResult yFS m2340).percent = 57 ∧
    pyRound (passedCount yFS m2340.checks * 100) m2340.checks.length = 58 ∧
    (prResult yFS m2340).percent
      ≠ pyRound (passedCount yFS m2340.checks * 100) m2340.checks.length := by
  refine ⟨by decide, by decide, by decide, by decide, by decide⟩

/-- C2 (amended): a milestone's `percent` field is `round(passed / total *
100)` evaluated as the program does, in binary64 floating point — which can
differ by one from rounding the exact ratio when the float product lands on
the other side of a half — when it has checks, and 0 when it has none (no
division by zero); the overall counters of the summary sum the check counts
and pass counts of all milestones (so zero-check milestones contribute
nothing to either side), the overall percent applies the same float
computation to those sums, and the 2/2, 1/3, 0/0 fixture yields overall
percent 60. -/
theorem percent_formula (fs : FS) (m : Milestone)
    (delivs : List (String × Milestone)) :
    (0 < m.checks.length →
      (prResult fs m).percent
        = pyPercent (passedCount fs m.checks) m.checks.length) ∧
    (m.checks.length = 0 → (prResult fs m).percent = 0) ∧
    (summaryOf (check_pr_status fs delivs)).overall_checks_total
      = (delivs.map (fun d => d.2.checks.length)).sum ∧
    (summaryOf (check_pr_status fs delivs)).overall_checks_passed
      = (delivs.map (fun d => passedCount fs d.2.checks)).sum ∧
    (0 < (summaryOf (check_pr_status fs delivs)).overall_checks_total →
      (summaryOf (check_pr_status fs delivs)).overall_percent
        = pyPercent
            (summaryOf (check_pr_status fs delivs)).overall_checks_passed
            (summaryOf (check_pr_status fs delivs)).overall_checks_total) ∧
    (summaryOf (check_pr_status fixtureFS fixtureDelivs)).overall_checks_passed
      = 3 ∧
    (summaryOf (check_pr_status fixtureFS fixtureDelivs)).overall_checks_total
      = 5 ∧
    (summaryOf (check_pr_status fixtureFS fixtureDelivs)).overall_percent = 60 := by
  refine ⟨?_, ?_, ?_, ?_, ?_, by decide, by decide, by decide⟩
  · intro h
    have hp : (prResult fs m).percent =
        if 0 < m.checks.length then
          pyPercent (passedCount fs m.checks) m.checks.length
        else 0 := rfl
    rw [hp, if_pos h]
  · intro h
    have hp : (prResult fs m).percent =
        if 0 < m.checks.length then
          pyPercent (passedCount fs m.checks) m.checks.length
        else 0 := rfl
    rw [hp, if_neg (by omega)]
  · simp [summaryOf, check_pr_status, List.map_map, Function.comp_def,
      prResult_details_length]
  · simp [summaryOf, check_pr_status, List.map_map, Function.comp_def,
      prResult_details_passed]
  · intro h
    have hs : (summaryOf (check_pr_status fs delivs)).overall_percent =
        if 0 < (summaryOf (check_pr_status fs delivs)).overall_checks_total then
          pyPercent
            (summaryOf (check_pr_status fs delivs)).overall_checks_passed
            (summaryOf (check_pr_status fs delivs)).overall_checks_total
        else 0 := rfl
    rw [hs, if_pos h]

/-- Witness for C2: the `1/3` fixture milestone has percent 33 (the float
product `1 / 3 * 100` rounds to 33), the empty milestone has percent 0, and
the fixture summary reports 3/5 checks and 60 percent overall. -/
theorem percent_formula_witness :
    (prResult fixtureFS
        { name := "B",
          checks := [⟨"file", "b1"⟩, ⟨"file", "b2"⟩, ⟨"file", "b3"⟩] }).percent
      = 33 ∧
    (prResult fixtureFS { name := "C", checks := [] }).percent = 0 ∧
    (summaryOf (check_pr_status fixtureFS fixtureDelivs)).overall_percent = 60 := by
  have hB := percent_formula fixtureFS
    { name := "B", checks := [⟨"file", "b1"⟩, ⟨"file", "b2"⟩, ⟨"file", "b3"⟩] }
    fixtureDelivs
  have hC := percent_formula fixtureFS { name := "C", checks := [] } fixtureDelivs
  refine ⟨?_, hC.2.1 rfl, hB.2.2.2.2.2.2.2⟩
  have h := hB.1 (by decide)
  rw [h]
  decide

/-- Counterexample to C3 as stated: the snapshot object written by `main` has
top-level keys `timestamp`, `prs`, `summary` — there is no `config_file`
key, so the keys differ from the claimed four at this concrete run. -/
theorem snapshot_keys_counterexample :
    topKeys (buildOutput "2026-10-12T00:00:00"
        (check_pr_status fixtureFS fixtureDelivs))
      ≠ ["timestamp", "config_file", "prs", "summary"] ∧
    ¬ "config_file" ∈ topKeys (buildOutput "2026-10-12T00:00:00"
        (check_pr_status fixtureFS fixtureDelivs)) := by
  constructor
  · decide
  · decide

/-- C3 (amended): on every run the snapshot is written to the fixed path
`.progress.json` under the project root, unconditionally replacing whatever
the store held there before, and the written JSON object has exactly the
top-level keys `timestamp`, `prs`, `summary`. -/
theorem snapshot_keys (now : String) (results : List (String × PRResult))
    (store : String → Option Json) (j : Json) :
    topKeys (buildOutput now results) = ["timestamp", "prs", "summary"] ∧
    output_path = ".progress.json" ∧
    writeSnapshot store j output_path = some j := by
  refine ⟨rfl, rfl, ?_⟩
  simp [writeSnapshot]

/-- C4: `check_dir` passes exactly when the path is an existing directory one
of whose entries has a name not starting with a dot; a missing directory, an
empty directory, and a directory containing only `.gitkeep` all fail. -/
theorem dir_check_characterization (fs : FS) (path : String) :
    (check_dir fs path = true ↔
      ∃ entries, fs.dirEntries path = some entries ∧
        ∃ e ∈ entries, startsWithDot e = false) ∧
    check_dir gitkeepFS "d" = false ∧
    check_dir emptyDirFS "d" = false ∧
    check_dir emptyFS "d" = false := by
  refine ⟨?_, by decide, by decide, by decide⟩
  unfold check_dir
  cases h : fs.dirEntries path with
  | none => simp
  | some es =>
    simp only [List.any_eq_true, Bool.not_eq_true', Option.some.injEq]
    constructor
    · rintro ⟨e, he, hdot⟩
      exact ⟨es, rfl, e, he, hdot⟩
    · rintro ⟨entries, hent, e, he, hdot⟩
      cases hent
      exact ⟨e, he, hdot⟩

/-- C7: inside `check_pr_status`, a check whose kind is neither `file` nor
`dir` evaluates to `False` (the final `else` branch) and so counts as not
satisfied; the total evaluation function never raises. -/
theorem unknown_check_kind_fails (fs : FS) (kind path : String)
    (hfile : kind ≠ "file") (hdir : kind ≠ "dir") :
    evalCheck fs { kind := kind, path := path } = false ∧
    passedCount fs [{ kind := kind, path := path }] = 0 := by
  have h : evalCheck fs { kind := kind, path := path } = false := by
    simp [evalCheck, hfile, hdir]
  exact ⟨h, by simp [passedCount, h]⟩

/-- Witness for C7: a check of kind `symlink` fails without raising. -/
theorem unknown_check_kind_fails_witness :
    evalCheck emptyFS { kind := "symlink", path := "x" } = false ∧
    passedCount emptyFS [{ kind := "symlink", path := "x" }] = 0 :=
  unknown_check_kind_fails emptyFS "symlink" "x" (by decide) (by decide)

/-- C9: the classification and the summary are a pure function of the
filesystem answers on the configured check paths: two filesystem states that
agree on `is_file` and on directory listings for every path in the check list
yield identical `prs` and `summary` report sections. -/
theorem classification_deterministic (fs1 fs2 : FS)
    (delivs : List (String × Milestone))
    (h : ∀ d ∈ delivs, ∀ c ∈ d.2.checks,
      fs1.isFile c.path = fs2.isFile c.path ∧
      fs1.dirEntries c.path = fs2.dirEntries c.path) :
    check_pr_status fs1 delivs = check_pr_status fs2 delivs ∧
    summaryOf (check_pr_status fs1 delivs)
      = summaryOf (check_pr_status fs2 delivs) := by
  have hprs : check_pr_status fs1 delivs = check_pr_status fs2 delivs := by
    unfold check_pr_status
    exact List.map_congr_left
      (fun d hd => by rw [prResult_congr fs1 fs2 d.2 (h d hd)])
  exact ⟨hprs, by rw [hprs]⟩

/-- Witness for C9: `fixtureFS` and `fixtureFSplus` differ (the latter has an
extra file `zzz`) but agree on every configured check path, so the reports
coincide. -/
theorem classification_deterministic_witness :
    check_pr_status fixtureFS fixtureDelivs
      = check_pr_status fixtureFSplus fixtureDelivs ∧
    summaryOf (check_pr_status fixtureFS fixtureDelivs)
      = summaryOf (check_pr_status fixtureFSplus fixtureDelivs) :=
  classification_deterministic fixtureFS fixtureFSplus fixtureDelivs
    (by decide)

open Grafana

/-- C5: each query item splits on its first `=` into key and value, repeated
keys accumulate their values in item order in the multi-value mapping, and a
list holding an item without `=` makes the pipeline fail before any request
is assembled. -/
theorem query_parsing_multimap (k v : Str) (qitems : List Str)
    (m : List (Str × List Str)) (key : Str) (bitems : List Str) (i : Str)
    (method path contentType baseUrl token : Str)
    (data dataFile : Option Str) (readFile : Str → Str) :
    (¬ '=' ∈ k → splitOnceEq (k ++ '=' :: v) = some (k, v)) ∧
    (parse_query qitems = .ok m → lookupVals m key = itemVals qitems key) ∧
    (i ∈ bitems → ¬ '=' ∈ i →
      ∃ e, runPipeline method path bitems data dataFile contentType
          baseUrl token readFile = .error e) := by
  refine ⟨fun hk => splitOnceEq_split k v hk, fun hok => ?_, fun hmem hi => ?_⟩
  · have := parseQueryAux_ok qitems [] m hok key
    simpa [lookupVals] using this
  · obtain ⟨e, he⟩ := parseQueryAux_error bitems i [] hmem
      (splitOnceEq_eq_none i hi)
    exact ⟨e, by simp only [runPipeline, parse_query, he]⟩

/-- Witness for C5: `a=1` splits into `a` and `1`; parsing
`[a=1, b=2, a=3]` stores `[1, 3]` under `a` in order; the single item `oops`
aborts the pipeline before a request exists. -/
theorem query_parsing_multimap_witness :
    splitOnceEq ("a".data ++ '=' :: "1".data) = some ("a".data, "1".data) ∧
    lookupVals [("a".data, ["1".data, "3".data]), ("b".data, ["2".data])]
        "a".data
      = itemVals ["a=1".data, "b=2".data, "a=3".data] "a".data ∧
    ∃ e, runPipeline "GET".data "/x".data ["oops".data] none none
        "application/json".data "https://h".data "t".data (fun _ => [])
      = .error e := by
  have h := query_parsing_multimap "a".data "1".data
    ["a=1".data, "b=2".data, "a=3".data]
    [("a".data, ["1".data, "3".data]), ("b".data, ["2".data])] "a".data
    ["oops".data] "oops".data "GET".data "/x".data "application/json".data
    "https://h".data "t".data none none (fun _ => [])
  exact ⟨h.1 (by decide), h.2.1 (by rfl),
    h.2.2 (by decide) (by decide)⟩

/-- C6: `read_payload` raises the use-only-one error whenever both the inline
body and the body-file path are given (truthy); with neither given it yields
no body, and a request assembled without a payload carries no Content-Type
header. -/
theorem body_mutual_exclusion (data dataFile : Option Str)
    (readFile : Str → Str) (method url token contentType : Str) :
    (pyTruthy data = true → pyTruthy dataFile = true →
      read_payload data dataFile readFile
        = .error "Use only one of --data or --data-file.") ∧
    read_payload none none readFile = .ok none ∧
    ¬ "Content-Type".data ∈
      (make_request method url token none contentType).headers.map Prod.fst := by
  refine ⟨fun h1 h2 => ?_, rfl, ?_⟩
  · simp [read_payload, h1, h2]
  · simp only [make_request, List.map_append, List.map_cons, List.map_nil,
      List.mem_append, List.mem_cons, List.not_mem_nil]
    decide

/-- Witness for C6: with both `--data x` and `--data-file f`, resolution
fails with the use-only-one error; with neither, the body is `None`. -/
theorem body_mutual_exclusion_witness :
    read_payload (some "x".data) (some "f".data) (fun _ => [])
      = .error "Use only one of --data or --data-file." ∧
    read_payload none none (fun _ => ([] : Str)) = .ok none := by
  have h := body_mutual_exclusion (some "x".data) (some "f".data)
    (fun _ => []) "GET".data "u".data "t".data "application/json".data
  exact ⟨h.1 (by decide) (by decide), h.2.1⟩

/-- C8: `https://h` and `api/x` build to `https://h/api/x`; in general a
trailing slash on the base is stripped, a missing leading slash on the path
is supplied, and with an empty query mapping no `?` appears that was not
already in the inputs. -/
theorem url_building (base path : Str) (q : List (Str × List Str)) :
    build_url "https://h".data "api/x".data [] = "https://h/api/x".data ∧
    build_url (base ++ ['/']) path q = build_url base path q ∧
    (hasLeadingSlash path = false →
      build_url base path q = build_url base ('/' :: path) q) ∧
    (¬ '?' ∈ base → ¬ '?' ∈ path → ¬ '?' ∈ build_url base path []) := by
  refine ⟨by decide, ?_, fun hpath => ?_, fun hb hp => ?_⟩
  · have hbase : rstripSlash (base ++ ['/']) = rstripSlash base := by
      simp [rstripSlash]
    simp [build_url, hbase]
  · have hlead : hasLeadingSlash ('/' :: path) = true := by
      simp [hasLeadingSlash]
    simp [build_url, hpath, hlead]
  · have hurl : build_url base path [] =
        rstripSlash base ++
          (if hasLeadingSlash path = true then path else '/' :: path) := rfl
    rw [hurl]
    intro hmem
    rcases List.mem_append.mp hmem with h1 | h1
    · exact hb (mem_rstripSlash '?' base h1)
    · by_cases hlead : hasLeadingSlash path = true
      · rw [if_pos hlead] at h1
        exact hp h1
      · rw [if_neg hlead] at h1
        rcases List.mem_cons.mp h1 with hq | hq
        · exact absurd hq (by decide)
        · exact hp hq

/-- Witness for C8: the concrete base `https://h` with and without a
trailing slash, the path `api/x` without its leading slash, and the absence
of `?` in the built URL. -/
theorem url_building_witness :
    build_url "https://h".data "api/x".data [] = "https://h/api/x".data ∧
    build_url ("https://h".data ++ ['/']) "api/x".data []
      = build_url "https://h".data "api/x".data [] ∧
    build_url "https://h".data "api/x".data []
      = build_url "https://h".data ('/' :: "api/x".data) [] ∧
    ¬ '?' ∈ build_url "https://h".data "api/x".data [] := by
  have h := url_building "https://h".data "api/x".data
    ([] : List (Str × List Str))
  exact ⟨h.1, h.2.1, h.2.2.1 (by decide), h.2.2.2 (by decide) (by decide)⟩

/-- C10: an empty inline `--data` string is falsy, so giving it together with
a (non-empty) `--data-file` raises no error and the file contents become the
body; giving only the empty inline string yields an empty body, not the
absence of a body. -/
theorem empty_inline_body (dataFile : Str) (readFile : Str → Str)
    (h : dataFile.isEmpty = false) :
    read_payload (some []) (some dataFile) readFile
      = .ok (some (readFile dataFile)) ∧
    read_payload (some []) none readFile = .ok (some []) := by
  constructor
  · simp [read_payload, pyTruthy, h]
  · rfl

/-- Witness for C10: with `--data ""` and `--data-file f` whose contents are
`abc`, the body is `abc`; with only `--data ""`, the body is the empty
string. -/
theorem empty_inline_body_witness :
    read_payload (some []) (some "f".data) (fun _ => "abc".data)
      = .ok (some "abc".data) ∧
    read_payload (some []) none (fun _ => "abc".data) = .ok (some []) :=
  empty_inline_body "f".data (fun _ => "abc".data) (by decide)
